import Mathlib

/-!
Verification of the authentication-and-quota core of the caten repository.

The definitions below are a shallow embedding of the Python sources:
  app/services/database_service.py   (session registry, anonymous usage ledger)
  app/services/auth_middleware.py    (authentication gateway)
  app/routes/auth_api.py             (login, logout, refresh-token routes)

Timestamps are modelled as natural numbers (seconds).  The SQL tables are
modelled as lists of records; each database function below mirrors the
corresponding Python function statement by statement.  Nondeterministic
inputs of the source (freshly generated uuids and secrets, the wall clock)
are passed in as explicit parameters.
-/

namespace Caten

/-- Character-level test that `p` is a prefix of `s`, mirroring the Python
str.startswith used by the middleware (Python strings are sequences of
characters, so a character-level model is exact). -/
def charsStartWith : List Char → List Char → Bool
  | [], _ => true
  | _ :: _, [] => false
  | p :: ps, c :: cs => p == c && charsStartWith ps cs

/-- startswith on strings, character based as in Python. -/
def strStartsWith (s p : String) : Bool := charsStartWith p.data s.data

/-- Python slicing s[n:], character based. -/
def strDropChars (s : String) (n : Nat) : String := ⟨s.data.drop n⟩

/-- Python str.strip(): remove leading and trailing whitespace. -/
def strTrim (s : String) : String :=
  ⟨((s.data.dropWhile Char.isWhitespace).reverse.dropWhile Char.isWhitespace).reverse⟩

/-- One row of the user_session table (the columns read and written by the
functions under verification). -/
structure SessionRec where
  id : String
  auth_vendor_type : String
  auth_vendor_id : String
  access_token_state : String
  refresh_token : String
  refresh_token_expires_at : Option Nat
  access_token_expires_at : Option Nat
  updated_at : Nat
deriving Repr, DecidableEq

/-- One row of the google_user_auth_info table (the columns the verified
functions depend on). -/
structure GoogleAuthRec where
  id : String
  user_id : String
  sub : String
deriving Repr, DecidableEq

/-- One row of the unauthenticated_user_api_usage table; api_usage is the
parsed JSON object, an association list from counter-field name to count. -/
structure UsageRec where
  user_id : String
  api_usage : List (String × Nat)
deriving Repr, DecidableEq

/-- The relational store consumed by database_service.py. -/
structure Db where
  users : List String
  google_auth : List GoogleAuthRec
  sessions : List SessionRec
  usage : List UsageRec
deriving Repr, DecidableEq

/-- Modelled from the spec: the in-memory cache behind
app.services.in_memory_cache.cache_factory is not part of the source tree;
per the spec it is a short-lived read-through cache whose entries expire
quickly, so it is modelled as a key-value store with a per-entry expiry
instant. -/
structure CacheEntry where
  key : String
  value : SessionRec
  expires_at : Nat
deriving Repr, DecidableEq

/-- Modelled from the spec: cache read; an entry answers only while its
expiry instant has not been reached. -/
def cacheGet (cache : List CacheEntry) (now : Nat) (key : String) : Option SessionRec :=
  (cache.find? (fun e => e.key == key && decide (now < e.expires_at))).map (·.value)

/-- Modelled from the spec: cache write; the value is stored under the key
with a time-to-live of ttl. -/
def cacheSet (cache : List CacheEntry) (now ttl : Nat) (key : String) (v : SessionRec) :
    List CacheEntry :=
  { key := key, value := v, expires_at := now + ttl } :: cache.filter (fun e => e.key != key)

/-- The mutable state touched by the verified request handlers: the durable
store plus the in-memory session cache. -/
structure SysState where
  db : Db
  cache : List CacheEntry
deriving Repr, DecidableEq

/-- Cache key used by get_user_session_by_id (source builds the string
USER_SESSION_INFO followed by a colon and the session id). -/
def sessionCacheKey (session_id : String) : String := "USER_SESSION_INFO:" ++ session_id

/-- database_service.get_user_session_by_id: check the cache first; on a miss
read the user_session row and store it in the cache before returning. -/
def get_user_session_by_id (st : SysState) (now ttl : Nat) (session_id : String) :
    Option SessionRec × SysState :=
  match cacheGet st.cache now (sessionCacheKey session_id) with
  | some s => (some s, st)
  | none =>
    match st.db.sessions.find? (fun s => s.id == session_id) with
    | none => (none, st)
    | some s =>
      (some s, { st with cache := cacheSet st.cache now ttl (sessionCacheKey session_id) s })

/-- WHERE clause of the invalidation UPDATE: the row belongs to the
(auth_vendor_type, auth_vendor_id) identity and its state is VALID. -/
def invalidateHit (auth_vendor_type authId : String) (s : SessionRec) : Bool :=
  s.auth_vendor_type == auth_vendor_type && s.auth_vendor_id == authId &&
    s.access_token_state == "VALID"

/-- SET clause of the invalidation UPDATE applied to one row: a matching row
becomes INVALID with a fresh updated_at, any other row is untouched. -/
def applyInvalidate (auth_vendor_type authId : String) (now : Nat) (s : SessionRec) :
    SessionRec :=
  if invalidateHit auth_vendor_type authId s then
    { s with access_token_state := "INVALID", updated_at := now }
  else s

/-- database_service.invalidate_user_session: resolve the google auth row by
sub, then set access_token_state to INVALID on every session of that
(auth_vendor_type, auth_vendor_id) identity whose state is VALID.  Returns
whether any row was updated (rowcount positive).  The cache is not touched
by the source. -/
def invalidate_user_session (db : Db) (now : Nat) (auth_vendor_type sub : String) :
    Bool × Db :=
  match db.google_auth.find? (fun g => g.sub == sub) with
  | none => (false, db)
  | some g =>
    (!(db.sessions.filter (invalidateHit auth_vendor_type g.id)).isEmpty,
     { db with sessions := db.sessions.map (applyInvalidate auth_vendor_type g.id now) })

/-- SET clause of the rotation UPDATE of
database_service.update_user_session_refresh_token applied to one row: the
row keyed by session_id receives the fresh secret and its 30-day expiry
(30 * 86400 seconds past now); when an access-token expiry argument is
supplied the row also receives it and is forced VALID. -/
def applyRotate (newTok : String) (now : Nat) (session_id : String)
    (access_token_expires_at : Option Nat) (s : SessionRec) : SessionRec :=
  if s.id == session_id then
    match access_token_expires_at with
    | some aexp =>
      { s with refresh_token := newTok, refresh_token_expires_at := some (now + 30 * 86400),
               access_token_expires_at := some aexp, access_token_state := "VALID",
               updated_at := now }
    | none =>
      { s with refresh_token := newTok, refresh_token_expires_at := some (now + 30 * 86400),
               updated_at := now }
  else s

/-- database_service.update_user_session_refresh_token: generate a fresh
refresh secret (passed in as newTok), store it and its expiry on the session
row keyed by session_id via applyRotate, and return the new plaintext secret
together with its expiry.  The cache is not touched by the source. -/
def update_user_session_refresh_token (db : Db) (newTok : String) (now : Nat)
    (session_id : String) (access_token_expires_at : Option Nat) :
    (String × Nat) × Db :=
  ((newTok, now + 30 * 86400),
   { db with sessions :=
       db.sessions.map (applyRotate newTok now session_id access_token_expires_at) })

/-- ORDER BY updated_at DESC LIMIT 1 over a filtered list: pick a row with
maximal updated_at. -/
def pickLatest : List SessionRec → Option SessionRec
  | [] => none
  | s :: rest =>
    match pickLatest rest with
    | none => some s
    | some b => if b.updated_at > s.updated_at then some b else some s

/-- database_service.get_or_create_user_session: generate a fresh refresh
secret (newTok) and expiries; for a new user insert a new VALID session row
(with fresh id newSessionId); otherwise update the most recently updated
session of the identity, or insert when none exists.  Returns
(session_id, refresh_token, refresh_token_expires_at). -/
def get_or_create_user_session (db : Db) (auth_vendor_type auth_vendor_id : String)
    (is_new_user : Bool) (newTok newSessionId : String) (now refreshTtl accessTtl : Nat) :
    (String × String × Nat) × Db :=
  let expires_at := now + refreshTtl
  let access_exp := now + accessTtl
  let newRow : SessionRec :=
    { id := newSessionId, auth_vendor_type := auth_vendor_type,
      auth_vendor_id := auth_vendor_id, access_token_state := "VALID",
      refresh_token := newTok, refresh_token_expires_at := some expires_at,
      access_token_expires_at := some access_exp, updated_at := now }
  if is_new_user then
    ((newSessionId, newTok, expires_at), { db with sessions := db.sessions ++ [newRow] })
  else
    match pickLatest (db.sessions.filter fun s =>
        s.auth_vendor_type == auth_vendor_type && s.auth_vendor_id == auth_vendor_id) with
    | some s =>
      let sessions' := db.sessions.map (fun r =>
        if r.id == s.id then
          { r with access_token_state := "VALID", refresh_token := newTok,
                   refresh_token_expires_at := some expires_at,
                   access_token_expires_at := some access_exp, updated_at := now }
        else r)
      ((s.id, newTok, expires_at), { db with sessions := sessions' })
    | none =>
      ((newSessionId, newTok, expires_at), { db with sessions := db.sessions ++ [newRow] })

/-- database_service.get_user_info_by_sub: inner join of google_user_auth_info
with user on user_id, filtered by sub; only existence and the user id are
needed by the verified flows. -/
def get_user_info_by_sub (db : Db) (sub : String) : Option String :=
  match db.google_auth.find? (fun g => g.sub == sub && db.users.contains g.user_id) with
  | some g => some g.user_id
  | none => none

/-- Lookup in the api_usage association list (Python dict.get). -/
def lookupUsage (us : List (String × Nat)) (k : String) : Option Nat :=
  (us.find? (fun p => p.fst == k)).map (·.snd)

/-- Python dict assignment d[k] = v on the association list. -/
def setUsage (us : List (String × Nat)) (k : String) (v : Nat) : List (String × Nat) :=
  if (us.find? (fun p => p.fst == k)).isSome then
    us.map (fun p => if p.fst == k then (p.fst, v) else p)
  else
    us ++ [(k, v)]

/-- database_service.get_unauthenticated_user_usage: return the parsed
api_usage object of the row keyed by user_id, if any. -/
def get_unauthenticated_user_usage (db : Db) (user_id : String) :
    Option (List (String × Nat)) :=
  (db.usage.find? (fun r => r.user_id == user_id)).map (·.api_usage)

/-- database_service.increment_api_usage: read the row; when absent do
nothing; otherwise bump the named counter (a missing key is added with
value 1) and write the row back. -/
def increment_api_usage (db : Db) (user_id api_name : String) : Db :=
  match db.usage.find? (fun r => r.user_id == user_id) with
  | none => db
  | some r =>
    let us := r.api_usage
    let us' :=
      if (lookupUsage us api_name).isSome then
        setUsage us api_name ((lookupUsage us api_name).getD 0 + 1)
      else
        setUsage us api_name 1
    { db with usage := db.usage.map (fun q =>
        if q.user_id == user_id then { q with api_usage := us' } else q) }

/-- The literal initial api_usage object of
database_service.create_unauthenticated_user_usage. -/
def initialApiUsage : List (String × Nat) :=
  [("words_explanation_api_count_so_far", 0),
   ("get_more_explanations_api_count_so_far", 0),
   ("ask_api_count_so_far", 0),
   ("simplify_api_count_so_far", 0),
   ("summarise_api_count_so_far", 0),
   ("image_to_text_api_count_so_far", 0),
   ("pdf_to_text_api_count_so_far", 0),
   ("important_words_from_text_v1_api_count_so_far", 0),
   ("words_explanation_v1_api_count_so_far", 0),
   ("get_random_paragraph_api_count_so_far", 0),
   ("important_words_from_text_v2_api_count_so_far", 0),
   ("pronunciation_api_count_so_far", 0),
   ("voice_to_text_api_count_so_far", 0),
   ("translate_api_count_so_far", 0),
   ("web_search_api_count_so_far", 0),
   ("web_search_stream_api_count_so_far", 0)]

/-- database_service.create_unauthenticated_user_usage: insert a fresh row
(id newUserId) with every known counter at 0 except the calling api, which
starts at 1 (an unknown api name is added with 1).  Returns the new id. -/
def create_unauthenticated_user_usage (db : Db) (newUserId api_name : String) :
    String × Db :=
  let us := setUsage initialApiUsage api_name 1
  (newUserId, { db with usage := db.usage ++ [{ user_id := newUserId, api_usage := us }] })

/-- The claims the gateway reads out of a decoded JWT access token.  The JWT
codec of jwt_service.py is an external library call; it is modelled as an
abstract decoder String to Option TokenPayload supplied to the handlers (a
decoding failure raises, modelled by none). -/
structure TokenPayload where
  sub : Option String
  email : Option String
  user_session_pk : Option String
  exp : Option Nat
deriving Repr, DecidableEq

/-- A request rejection as raised by the handlers: HTTP status plus the
errorCode and message fields of the detail body (handlers that raise a bare
string detail are given an empty errorCode). -/
structure Rejection where
  status : Nat
  errorCode : String
  message : String
deriving Repr, DecidableEq

/-- The spec taxonomy kind LoginRequired as the handlers emit it: a 401 whose
detail carries errorCode LOGIN_REQUIRED. -/
def Rejection.isLoginRequired (r : Rejection) : Prop :=
  r.status = 401 ∧ r.errorCode = "LOGIN_REQUIRED"

/-- The spec taxonomy kind TokenExpired: a 401 whose detail carries errorCode
TOKEN_EXPIRED. -/
def Rejection.isTokenExpired (r : Rejection) : Prop :=
  r.status = 401 ∧ r.errorCode = "TOKEN_EXPIRED"

/-- The spec taxonomy kind LimitExceeded: the handlers signal it with HTTP
status 429 (the detail body still says LOGIN_REQUIRED in the source). -/
def Rejection.isLimitExceeded (r : Rejection) : Prop :=
  r.status = 429

/-- 401 LOGIN_REQUIRED rejection of auth_middleware.authenticate. -/
def loginRequired401 : Rejection :=
  { status := 401, errorCode := "LOGIN_REQUIRED", message := "Please login" }

/-- 401 TOKEN_EXPIRED rejection of auth_middleware.authenticate. -/
def tokenExpired401 : Rejection :=
  { status := 401, errorCode := "TOKEN_EXPIRED",
    message := "Please refresh the access token with refresh token" }

/-- 429 rejection of auth_middleware.authenticate (ceiling reached or
endpoint configuration unresolved; the source sends errorCode LOGIN_REQUIRED
with status 429). -/
def limitExceeded429 : Rejection :=
  { status := 429, errorCode := "LOGIN_REQUIRED", message := "Please login" }

/-- 401 raised when decoding the access token fails in case 1 (the source
raises a bare string detail). -/
def invalidAccessToken401 : Rejection :=
  { status := 401, errorCode := "", message := "Invalid access token" }

/-- The request descriptor the middleware consumes: url path, Authorization
header, X-Unauthenticated-User-Id header. -/
structure Request where
  path : String
  authorization : Option String
  unauthenticated_user_id : Option String
deriving Repr, DecidableEq

/-- The outcome of auth_middleware.authenticate: the authenticated context,
the anonymous context (with the new-user marker of case 3), or a rejection. -/
inductive AuthOutcome where
  | authenticated (user_session_pk : String) (session : SessionRec)
  | anonymous (user_id : String) (isNewUser : Bool)
  | rejected (r : Rejection)
deriving Repr, DecidableEq

/-- The literal API_ENDPOINT_TO_COUNTER_FIELD table of auth_middleware.py. -/
def API_ENDPOINT_TO_COUNTER_FIELD : List (String × String) :=
  [("/api/v1/image-to-text", "image_to_text_api_count_so_far"),
   ("/api/v1/pdf-to-text", "pdf_to_text_api_count_so_far"),
   ("/api/v1/important-words-from-text", "important_words_from_text_v1_api_count_so_far"),
   ("/api/v1/words-explanation", "words_explanation_v1_api_count_so_far"),
   ("/api/v1/get-more-explanations", "get_more_explanations_api_count_so_far"),
   ("/api/v1/get-random-paragraph", "get_random_paragraph_api_count_so_far"),
   ("/api/v2/words-explanation", "words_explanation_api_count_so_far"),
   ("/api/v2/simplify", "simplify_api_count_so_far"),
   ("/api/v2/important-words-from-text", "important_words_from_text_v2_api_count_so_far"),
   ("/api/v2/ask", "ask_api_count_so_far"),
   ("/api/v2/pronunciation", "pronunciation_api_count_so_far"),
   ("/api/v2/voice-to-text", "voice_to_text_api_count_so_far"),
   ("/api/v2/translate", "translate_api_count_so_far"),
   ("/api/v2/summarise", "summarise_api_count_so_far"),
   ("/api/v2/web-search", "web_search_api_count_so_far"),
   ("/api/v2/web-search-stream", "web_search_stream_api_count_so_far")]

/-- The literal API_ENDPOINT_TO_MAX_LIMIT_CONFIG table of auth_middleware.py. -/
def API_ENDPOINT_TO_MAX_LIMIT_CONFIG : List (String × String) :=
  [("/api/v1/image-to-text", "image_to_text_api_max_limit"),
   ("/api/v1/pdf-to-text", "pdf_to_text_api_max_limit"),
   ("/api/v1/important-words-from-text", "important_words_from_text_v1_api_max_limit"),
   ("/api/v1/words-explanation", "words_explanation_v1_api_max_limit"),
   ("/api/v1/get-more-explanations", "get_more_explanations_api_max_limit"),
   ("/api/v1/get-random-paragraph", "get_random_paragraph_api_max_limit"),
   ("/api/v2/words-explanation", "words_explanation_api_max_limit"),
   ("/api/v2/simplify", "simplify_api_max_limit"),
   ("/api/v2/important-words-from-text", "important_words_from_text_v2_api_max_limit"),
   ("/api/v2/ask", "ask_api_max_limit"),
   ("/api/v2/pronunciation", "pronunciation_api_max_limit"),
   ("/api/v2/voice-to-text", "voice_to_text_api_max_limit"),
   ("/api/v2/translate", "translate_api_max_limit"),
   ("/api/v2/summarise", "summarise_api_max_limit"),
   ("/api/v2/web-search", "web_search_api_max_limit"),
   ("/api/v2/web-search-stream", "web_search_stream_api_max_limit")]

/-- Association-list lookup (dict.get of the endpoint tables). -/
def lookupTable (t : List (String × String)) (k : String) : Option String :=
  (t.find? (fun p => p.fst == k)).map (·.snd)

/-- auth_middleware.get_api_counter_field_and_limit: resolve the counter
field and the configured ceiling for the request path; the ceiling comes
from the settings object (modelled as a partial map from config name to
value, matching getattr with default None). -/
def get_api_counter_field_and_limit (settings : String → Option Nat) (path : String) :
    Option String × Option Nat :=
  match lookupTable API_ENDPOINT_TO_COUNTER_FIELD path,
        lookupTable API_ENDPOINT_TO_MAX_LIMIT_CONFIG path with
  | some cf, some lc => (some cf, settings lc)
  | _, _ => (none, none)

/-- Bearer-token extraction of auth_middleware.authenticate: a header not
starting with the Bearer prefix is treated as no token; the Python truthiness
test on the extracted token makes an empty remainder count as no token as
well, so both are folded into none here. -/
def extractAccessToken (authorization : Option String) : Option String :=
  match authorization with
  | none => none
  | some h =>
    if strStartsWith h "Bearer " then
      let t := strTrim (strDropChars h 7)
      if t = "" then none else some t
    else none

/-- Python truthiness of an optional header value: absent or empty is
falsy. -/
def presentHeader (h : Option String) : Option String :=
  match h with
  | some s => if s = "" then none else some s
  | none => none

/-- Case 1 of auth_middleware.authenticate (access token present): decode the
token ignoring expiry, require a session reference, fetch the session through
the read-through cache, require state VALID, then reject TokenExpired when a
stored access-token expiry has passed, else admit as authenticated. -/
def authCase1 (decode : String → Option TokenPayload) (now ttl : Nat)
    (st : SysState) (tok : String) : AuthOutcome × SysState :=
  match decode tok with
  | none => (.rejected invalidAccessToken401, st)
  | some payload =>
    match presentHeader payload.user_session_pk with
    | none => (.rejected loginRequired401, st)
    | some pk =>
      match get_user_session_by_id st now ttl pk with
      | (none, st1) => (.rejected loginRequired401, st1)
      | (some sess, st1) =>
        if sess.access_token_state = "VALID" then
          match sess.access_token_expires_at with
          | some exp =>
            if exp < now then (.rejected tokenExpired401, st1)
            else (.authenticated pk sess, st1)
          | none => (.authenticated pk sess, st1)
        else (.rejected loginRequired401, st1)

/-- Case 2 of auth_middleware.authenticate (anonymous id, no access token):
the ledger existence check runs first (absent record, including an empty
usage object, rejects 401 LOGIN_REQUIRED); an unresolved counter field or
ceiling rejects with 429; a count at or above the ceiling rejects with 429;
otherwise the one counter is incremented and the request admitted. -/
def authCase2 (st : SysState) (uid : String)
    (api_counter_field : Option String) (max_limit : Option Nat) :
    AuthOutcome × SysState :=
  match get_unauthenticated_user_usage st.db uid with
  | none => (.rejected loginRequired401, st)
  | some api_usage =>
    if api_usage.isEmpty then (.rejected loginRequired401, st)
    else
      match api_counter_field, max_limit with
      | some f, some limit =>
        if (lookupUsage api_usage f).getD 0 ≥ limit then
          (.rejected limitExceeded429, st)
        else
          (.anonymous uid false, { st with db := increment_api_usage st.db uid f })
      | _, _ => (.rejected limitExceeded429, st)

/-- Case 3 of auth_middleware.authenticate (no credentials at all): an
unresolved counter field or ceiling rejects with 429; otherwise a fresh
anonymous record is created, seeded with this call, and the request admitted
with the new id. -/
def authCase3 (st : SysState) (newUserId : String)
    (api_counter_field : Option String) (max_limit : Option Nat) :
    AuthOutcome × SysState :=
  match api_counter_field, max_limit with
  | some f, some _ =>
    let r := create_unauthenticated_user_usage st.db newUserId f
    (.anonymous r.fst true, { st with db := r.snd })
  | _, _ => (.rejected limitExceeded429, st)

/-- auth_middleware.authenticate: dispatch on the presented credentials. -/
def authenticate (decode : String → Option TokenPayload) (settings : String → Option Nat)
    (newUserId : String) (now ttl : Nat) (st : SysState) (req : Request) :
    AuthOutcome × SysState :=
  let cfg := get_api_counter_field_and_limit settings req.path
  match extractAccessToken req.authorization with
  | some tok => authCase1 decode now ttl st tok
  | none =>
    match presentHeader req.unauthenticated_user_id with
    | some uid => authCase2 st uid cfg.fst cfg.snd
    | none => authCase3 st newUserId cfg.fst cfg.snd

/-- Result of the refresh-token route: a 200 with the freshly issued refresh
secret set as a cookie, or a rejection. -/
inductive RefreshOutcome where
  | success (newRefreshToken : String) (expiresAt : Nat)
  | rejected (r : Rejection)
deriving Repr, DecidableEq

/-- Rejection of the refresh route when the presented refresh secret does not
match the stored one. -/
def refreshInvalidRefreshToken : Rejection :=
  { status := 401, errorCode := "LOGIN_REQUIRED", message := "Invalid refresh token" }

/-- The source strips the Bearer marker with str.replace of the literal
followed by strip; for a header whose remainder does not itself contain that
literal (a JWT cannot, it has no spaces) this equals dropping the 7-character
prefix and stripping, which is how it is modelled. -/
def stripBearer (h : String) : String := strTrim (strDropChars h 7)

/-- auth_api.refresh_access_token: validate the Authorization header and the
refreshToken cookie, decode the access token ignoring expiry, fetch the
session through the read-through cache, require state VALID, reject when the
stored refresh expiry has passed, reject when the cookie does not equal the
stored refresh secret, else rotate: store a fresh secret (newTok) and return
it with its expiry. -/
def refresh_access_token (decode : String → Option TokenPayload)
    (authorization refreshCookie : Option String)
    (newTok : String) (now ttl : Nat) (st : SysState) :
    RefreshOutcome × SysState :=
  match authorization with
  | none =>
    (.rejected { status := 401, errorCode := "LOGIN_REQUIRED",
                 message := "Missing or invalid Authorization header" }, st)
  | some h =>
    if strStartsWith h "Bearer " then
      let access_token := stripBearer h
      if access_token = "" then
        (.rejected { status := 401, errorCode := "LOGIN_REQUIRED",
                     message := "Empty access token" }, st)
      else
        match presentHeader refreshCookie with
        | none =>
          (.rejected { status := 401, errorCode := "LOGIN_REQUIRED",
                       message := "Missing refresh token" }, st)
        | some cookie =>
          match decode access_token with
          | none =>
            (.rejected { status := 401, errorCode := "LOGIN_REQUIRED",
                         message := "Invalid access token" }, st)
          | some payload =>
            match presentHeader payload.user_session_pk with
            | none =>
              (.rejected { status := 401, errorCode := "LOGIN_REQUIRED",
                           message := "Missing user_session_pk in token" }, st)
            | some pk =>
              match get_user_session_by_id st now ttl pk with
              | (none, st1) =>
                (.rejected { status := 401, errorCode := "LOGIN_REQUIRED",
                             message := "Session not found" }, st1)
              | (some sess, st1) =>
                if sess.access_token_state = "VALID" then
                  if (match sess.refresh_token_expires_at with
                      | some e => decide (e < now)
                      | none => false) then
                    (.rejected { status := 401, errorCode := "LOGIN_REQUIRED",
                                 message := "Refresh token expired" }, st1)
                  else if cookie = sess.refresh_token then
                    let r := update_user_session_refresh_token st1.db newTok now pk none
                    (.success r.fst.fst r.fst.snd, { st1 with db := r.snd })
                  else
                    (.rejected refreshInvalidRefreshToken, st1)
                else
                  (.rejected { status := 401, errorCode := "LOGIN_REQUIRED",
                               message := "Session is invalid" }, st1)
    else
      (.rejected { status := 401, errorCode := "LOGIN_REQUIRED",
                   message := "Missing or invalid Authorization header" }, st)

/-- Successful logout response body (the fields the verified claims need). -/
structure LogoutSuccess where
  isLoggedIn : Bool
  userSessionPk : String
deriving Repr, DecidableEq

/-- auth_api.logout: validate the Authorization header, decode the access
token ignoring expiry, read the sub claim, invalidate every VALID session of
the (GOOGLE, sub) identity, then build the response from the user record; a
failed invalidation only logs and the flow continues. -/
def logout (decode : String → Option TokenPayload) (authorization : Option String)
    (authVendor : String) (now : Nat) (db : Db) :
    Except Rejection LogoutSuccess × Db :=
  match authorization with
  | none =>
    (.error { status := 401, errorCode := "",
              message := "Missing or invalid Authorization header" }, db)
  | some h =>
    if strStartsWith h "Bearer " then
      let access_token := stripBearer h
      if access_token = "" then
        (.error { status := 401, errorCode := "", message := "Empty access token" }, db)
      else
        match decode access_token with
        | none =>
          (.error { status := 401, errorCode := "", message := "Invalid access token" }, db)
        | some payload =>
          match presentHeader payload.sub with
          | none =>
            (.error { status := 401, errorCode := "",
                      message := "Missing sub field in token" }, db)
          | some sub =>
            if authVendor = "GOOGLE" then
              let inv := invalidate_user_session db now "GOOGLE" sub
              match get_user_info_by_sub inv.snd sub with
              | none =>
                (.error { status := 404, errorCode := "", message := "User not found" },
                 inv.snd)
              | some _uid =>
                (.ok { isLoggedIn := false,
                       userSessionPk := (payload.user_session_pk).getD "" }, inv.snd)
            else
              (.error { status := 404, errorCode := "",
                        message := "Unsupported auth vendor" }, db)
    else
      (.error { status := 401, errorCode := "",
                message := "Missing or invalid Authorization header" }, db)

/-- The user_session row the gateway and the refresh route read: the first
row with the given id (fetchone of the WHERE id query). -/
def findSession (db : Db) (sid : String) : Option SessionRec :=
  db.sessions.find? (fun s => s.id == sid)

/-- Fixture: a session that was issued the refresh secret R0 and is VALID;
its access-token expiry column is NULL. -/
def exampleSession : SessionRec :=
  { id := "s1", auth_vendor_type := "GOOGLE", auth_vendor_id := "g1",
    access_token_state := "VALID", refresh_token := "R0",
    refresh_token_expires_at := some 1000000000,
    access_token_expires_at := none, updated_at := 0 }

/-- Fixture: a store with one user, one google binding and one session. -/
def exampleDb : Db :=
  { users := ["u1"],
    google_auth := [{ id := "g1", user_id := "u1", sub := "sub1" }],
    sessions := [exampleSession],
    usage := [] }

/-- Fixture: a JWT decoder that accepts exactly the token T1, bound to the
session s1 of sub1. -/
def exampleDecode : String → Option TokenPayload := fun t =>
  if t = "T1" then
    some { sub := some "sub1", email := none, user_session_pk := some "s1", exp := none }
  else none

/-- Fixture: a settings object configuring only the v2 simplify ceiling. -/
def exampleSettings : String → Option Nat := fun k =>
  if k = "simplify_api_max_limit" then some 5 else none

/-- Fixture: a usage ledger row for the anonymous caller anon1 with three
recorded simplify calls. -/
def exampleUsageDb : Db :=
  { users := [], google_auth := [], sessions := [],
    usage := [{ user_id := "anon1",
                api_usage := [("simplify_api_count_so_far", 3),
                              ("ask_api_count_so_far", 0)] }] }

/-- find? commutes with a map that does not change the predicate value. -/
theorem find_map_key {α : Type} (l : List α) (p : α → Bool) (f : α → α)
    (hp : ∀ r, p (f r) = p r) :
    (l.map f).find? p = (l.find? p).map f := by
  induction l with
  | nil => rfl
  | cons a t ih =>
    by_cases h : p a = true
    · rw [List.map_cons, List.find?_cons_of_pos _ (show p (f a) by rw [hp]; exact h),
          List.find?_cons_of_pos _ h]
      rfl
    · rw [List.map_cons,
          List.find?_cons_of_neg _ (show ¬ p (f a) by rw [hp]; simp [h]),
          List.find?_cons_of_neg _ (by simp [h]), ih]

/-- A map whose function fixes every element of the list is the identity. -/
theorem map_eq_self_of_fix {α : Type} (l : List α) (f : α → α)
    (h : ∀ x ∈ l, f x = x) : l.map f = l := by
  induction l with
  | nil => rfl
  | cons a t ih =>
    rw [List.map_cons, h a (by simp), ih (fun x hx => h x (by simp [hx]))]

/-- find? over a filtered list fails when the filter and the search predicate
are incompatible. -/
theorem find_filter_none {α : Type} (l : List α) (p q : α → Bool)
    (h : ∀ e, q e = true → p e = false) : (l.filter q).find? p = none := by
  induction l with
  | nil => rfl
  | cons a t ih =>
    by_cases hq : q a = true
    · rw [List.filter_cons_of_pos hq, List.find?_cons_of_neg _ (by simp [h a hq]), ih]
    · rw [List.filter_cons_of_neg (by simp [hq]), ih]

/-- A cache entry written at time now with lifetime ttl no longer answers at
a time past its expiry instant. -/
theorem cacheGet_set_expired (cache : List CacheEntry) (now ttl : Nat) (key : String)
    (v : SessionRec) (now2 : Nat) (h : now + ttl ≤ now2) :
    cacheGet (cacheSet cache now ttl key v) now2 key = none := by
  unfold cacheGet cacheSet
  rw [List.find?_cons_of_neg _ (by simp [Nat.not_lt.mpr h]),
      find_filter_none _ _ _ (fun e he => by
        simp only [bne_iff_ne, ne_eq] at he
        simp [he])]
  rfl

/-- Reading back the key just written through setUsage. -/
theorem lookupUsage_set_self (us : List (String × Nat)) (k : String) (v : Nat) :
    lookupUsage (setUsage us k v) k = some v := by
  unfold setUsage lookupUsage
  by_cases h : (us.find? (fun p => p.fst == k)).isSome
  · rw [if_pos h, find_map_key _ _ _ (fun r => by by_cases hr : (r.fst == k) = true <;> simp [hr])]
    obtain ⟨r, hr⟩ := Option.isSome_iff_exists.mp h
    have hk := List.find?_some hr
    simp only [beq_iff_eq] at hk
    rw [hr]
    simp [hk]
  · rw [if_neg h, List.find?_append]
    cases hf : us.find? (fun p => p.fst == k) with
    | some r => rw [hf] at h; simp at h
    | none => simp

/-- setUsage leaves every other key unchanged. -/
theorem lookupUsage_set_other (us : List (String × Nat)) (k : String) (v : Nat)
    (g : String) (h : g ≠ k) :
    lookupUsage (setUsage us k v) g = lookupUsage us g := by
  unfold setUsage lookupUsage
  by_cases hs : (us.find? (fun p => p.fst == k)).isSome
  · rw [if_pos hs, find_map_key _ _ _ (fun r => by by_cases hr : (r.fst == k) = true <;> simp [hr])]
    cases hf : us.find? (fun p => p.fst == g) with
    | none => simp
    | some r =>
      have hg := List.find?_some hf
      simp only [beq_iff_eq] at hg
      simp [hg, h]
  · rw [if_neg hs, List.find?_append]
    cases hf : us.find? (fun p => p.fst == g) with
    | some r => simp
    | none => simp [Ne.symm h]

/-- The two increment branches of increment_api_usage collapse to a single
setUsage of the bumped value. -/
theorem increment_us_eq (us : List (String × Nat)) (k : String) :
    (if (lookupUsage us k).isSome then setUsage us k ((lookupUsage us k).getD 0 + 1)
     else setUsage us k 1) = setUsage us k ((lookupUsage us k).getD 0 + 1) := by
  cases h : lookupUsage us k <;> simp [h]

/-- Effect of increment_api_usage on the incremented row. -/
theorem usage_after_increment (db : Db) (uid f : String) (us : List (String × Nat))
    (h : get_unauthenticated_user_usage db uid = some us) :
    get_unauthenticated_user_usage (increment_api_usage db uid f) uid
      = some (setUsage us f ((lookupUsage us f).getD 0 + 1)) := by
  unfold get_unauthenticated_user_usage at h ⊢
  unfold increment_api_usage
  cases hf : db.usage.find? (fun r => r.user_id == uid) with
  | none => rw [hf] at h; simp at h
  | some r =>
    rw [hf] at h
    simp only [Option.map_some'] at h
    cases h
    simp only [hf]
    rw [find_map_key _ _ _ (fun q => by
      by_cases hq : q.user_id = uid <;> simp [hq])]
    rw [hf]
    have hru := List.find?_some hf
    simp only [beq_iff_eq] at hru
    simp [hru, increment_us_eq]

/-- increment_api_usage does not touch the row of any other caller. -/
theorem usage_other_after_increment (db : Db) (uid f B : String) (hB : B ≠ uid) :
    get_unauthenticated_user_usage (increment_api_usage db uid f) B
      = get_unauthenticated_user_usage db B := by
  unfold increment_api_usage
  cases hf : db.usage.find? (fun r => r.user_id == uid) with
  | none => rfl
  | some r =>
    unfold get_unauthenticated_user_usage
    simp only
    rw [find_map_key _ _ _ (fun q => by
      by_cases hq : q.user_id = uid <;> simp [hq])]
    cases hg : db.usage.find? (fun q => q.user_id == B) with
    | none => simp
    | some q =>
      have hqB := List.find?_some hg
      simp only [beq_iff_eq] at hqB
      simp [hqB, hB]

/-- increment_api_usage only writes the usage table. -/
theorem increment_preserves_sessions (db : Db) (uid f : String) :
    (increment_api_usage db uid f).sessions = db.sessions := by
  unfold increment_api_usage
  cases db.usage.find? (fun r => r.user_id == uid) <;> rfl

/-- invalidate_user_session writes only the sessions table. -/
theorem invalidate_preserves_rest (db : Db) (now : Nat) (v sub : String) :
    (invalidate_user_session db now v sub).snd.google_auth = db.google_auth ∧
    (invalidate_user_session db now v sub).snd.users = db.users ∧
    (invalidate_user_session db now v sub).snd.usage = db.usage := by
  unfold invalidate_user_session
  cases db.google_auth.find? (fun g => g.sub == sub) <;> exact ⟨rfl, rfl, rfl⟩

/-- get_user_info_by_sub only reads the google_auth and users tables. -/
theorem user_info_congr (db1 db2 : Db) (sub : String)
    (hg : db1.google_auth = db2.google_auth) (hu : db1.users = db2.users) :
    get_user_info_by_sub db1 sub = get_user_info_by_sub db2 sub := by
  unfold get_user_info_by_sub
  rw [hg, hu]

/-- A row that has been through the invalidation UPDATE no longer matches
its WHERE clause. -/
theorem hit_applyInvalidate (v a : String) (now : Nat) (s : SessionRec) :
    invalidateHit v a (applyInvalidate v a now s) = false := by
  unfold applyInvalidate
  by_cases h : invalidateHit v a s = true
  · rw [if_pos h]
    unfold invalidateHit
    simp
  · rw [if_neg h]
    simpa using h

/-- applyInvalidate never changes the id of a row. -/
theorem applyInvalidate_id (v a : String) (now : Nat) (s : SessionRec) :
    (applyInvalidate v a now s).id = s.id := by
  unfold applyInvalidate
  by_cases h : invalidateHit v a s = true
  · rw [if_pos h]
  · rw [if_neg h]

/-- Invalidating a second time changes nothing and reports that no row was
updated. -/
theorem invalidate_idem (db : Db) (v sub : String) (now1 now2 : Nat) :
    invalidate_user_session (invalidate_user_session db now1 v sub).snd now2 v sub
      = (false, (invalidate_user_session db now1 v sub).snd) := by
  cases hg : db.google_auth.find? (fun g => g.sub == sub) with
  | none => simp [invalidate_user_session, hg]
  | some g =>
    have h1 : invalidate_user_session db now1 v sub
        = (!(db.sessions.filter (invalidateHit v g.id)).isEmpty,
           { db with sessions := db.sessions.map (applyInvalidate v g.id now1) }) := by
      simp [invalidate_user_session, hg]
    rw [h1]
    have hfil : (db.sessions.map (applyInvalidate v g.id now1)).filter
        (invalidateHit v g.id) = [] := by
      rw [List.filter_eq_nil_iff]
      intro a ha
      obtain ⟨x, _, hx⟩ := List.mem_map.mp ha
      simp [← hx, hit_applyInvalidate]
    have hmap : (db.sessions.map (applyInvalidate v g.id now1)).map
        (applyInvalidate v g.id now2) = db.sessions.map (applyInvalidate v g.id now1) := by
      apply map_eq_self_of_fix
      intro y hy
      obtain ⟨x, _, hx⟩ := List.mem_map.mp hy
      unfold applyInvalidate
      rw [if_neg]
      rw [← hx, hit_applyInvalidate]
      simp
    simp [invalidate_user_session, hg, hfil, hmap]

/-- applyRotate never changes the id of a row. -/
theorem applyRotate_id (newTok : String) (now : Nat) (sid : String) (aexp : Option Nat)
    (s : SessionRec) : (applyRotate newTok now sid aexp s).id = s.id := by
  unfold applyRotate
  by_cases h : (s.id == sid) = true
  · rw [if_pos h]
    cases aexp <;> rfl
  · rw [if_neg h]

/-- The session read after a rotation sees the rotated row. -/
theorem findSession_after_rotate (db : Db) (newTok : String) (now : Nat)
    (sid : String) (aexp : Option Nat) :
    findSession (update_user_session_refresh_token db newTok now sid aexp).snd sid
      = (findSession db sid).map (applyRotate newTok now sid aexp) := by
  unfold findSession update_user_session_refresh_token
  exact find_map_key _ _ _ (fun r => by rw [applyRotate_id])

/-- The session read after an invalidation sees the updated row. -/
theorem findSession_after_invalidate (db : Db) (now : Nat) (v sub : String)
    (g : GoogleAuthRec) (pk : String)
    (hg : db.google_auth.find? (fun x => x.sub == sub) = some g) :
    findSession (invalidate_user_session db now v sub).snd pk
      = (findSession db pk).map (applyInvalidate v g.id now) := by
  unfold findSession invalidate_user_session
  rw [hg]
  exact find_map_key _ _ _ (fun r => by rw [applyInvalidate_id])

/-- On a cache miss the session read consults the table and writes through. -/
theorem session_read_miss (st : SysState) (now ttl : Nat) (pk : String)
    (hc : cacheGet st.cache now (sessionCacheKey pk) = none) :
    get_user_session_by_id st now ttl pk
      = match findSession st.db pk with
        | none => (none, st)
        | some s =>
          (some s, { st with cache := cacheSet st.cache now ttl (sessionCacheKey pk) s }) := by
  unfold get_user_session_by_id findSession
  rw [hc]

/-- Evaluation of the logout route once the header, token and sub checks
pass: the outcome is determined by the invalidation and the user lookup. -/
theorem logout_reduces (decode : String → Option TokenPayload) (auth : Option String)
    (h tok sub : String) (payload : TokenPayload) (db : Db) (now : Nat)
    (hh : auth = some h) (hb : strStartsWith h "Bearer " = true)
    (ht : stripBearer h = tok) (hne : tok ≠ "")
    (hd : decode tok = some payload) (hsub : payload.sub = some sub) (hsubne : sub ≠ "") :
    logout decode auth "GOOGLE" now db
      = (match get_user_info_by_sub (invalidate_user_session db now "GOOGLE" sub).snd sub with
         | none =>
           (.error { status := 404, errorCode := "", message := "User not found" },
            (invalidate_user_session db now "GOOGLE" sub).snd)
         | some _uid =>
           (.ok { isLoggedIn := false,
                  userSessionPk := (payload.user_session_pk).getD "" },
            (invalidate_user_session db now "GOOGLE" sub).snd)) := by
  subst hh
  simp only [logout, hb, ht, hd, hsub, presentHeader]
  simp [hne, hsubne]

/-- Case 3 always rejects when the ceiling resolves to none. -/
theorem authCase3_config_none (st : SysState) (newUserId : String) (cf : Option String) :
    authCase3 st newUserId cf none = (.rejected limitExceeded429, st) := by
  cases cf <;> rfl

/-- Case 2 with an unresolved ceiling: the ledger existence check still runs
first, then the request is rejected. -/
theorem authCase2_config_none (st : SysState) (uid : String) (cf : Option String) :
    authCase2 st uid cf none
      = (match get_unauthenticated_user_usage st.db uid with
         | none => (.rejected loginRequired401, st)
         | some us =>
           if us.isEmpty then (.rejected loginRequired401, st)
           else (.rejected limitExceeded429, st)) := by
  unfold authCase2
  cases hus : get_unauthenticated_user_usage st.db uid with
  | none => rfl
  | some us =>
    by_cases he : us.isEmpty = true
    · simp [he]
    · simp only [Bool.not_eq_true] at he
      simp only [he, Bool.false_eq_true, if_false]

/-- C9: a request whose Authorization header does not start with the Bearer
marker is processed exactly as if no access token had been presented: the
gateway outcome and the resulting state coincide with those of the same
request without the header, so the request flows to the anonymous branches
and is never rejected merely for the malformed header. -/
theorem C9_theorem (decode : String → Option TokenPayload) (settings : String → Option Nat)
    (newUserId : String) (now ttl : Nat) (st : SysState) (req : Request) (h : String)
    (h1 : req.authorization = some h) (h2 : strStartsWith h "Bearer " = false) :
    authenticate decode settings newUserId now ttl st req
      = authenticate decode settings newUserId now ttl st
          { path := req.path, authorization := none,
            unauthenticated_user_id := req.unauthenticated_user_id } := by
  have he : extractAccessToken req.authorization = none := by
    rw [h1]
    simp [extractAccessToken, h2]
  simp only [authenticate, he]
  rfl

theorem C9_witness :
    authenticate exampleDecode exampleSettings "nu" 0 60 ⟨exampleDb, []⟩
        { path := "/api/v2/simplify", authorization := some "Basic xyz",
          unauthenticated_user_id := none }
      = authenticate exampleDecode exampleSettings "nu" 0 60 ⟨exampleDb, []⟩
          { path := "/api/v2/simplify", authorization := none,
            unauthenticated_user_id := none } :=
  C9_theorem exampleDecode exampleSettings "nu" 0 60 ⟨exampleDb, []⟩
    { path := "/api/v2/simplify", authorization := some "Basic xyz",
      unauthenticated_user_id := none } "Basic xyz" rfl (by decide)

/-- C10: when the session row referenced by a decodable access token has no
access-token expiry on record and its state is VALID, the gateway skips the
expiry check and admits the request as authenticated at every time now, so
such a request is never rejected with TokenExpired. -/
theorem C10_theorem (decode : String → Option TokenPayload) (settings : String → Option Nat)
    (newUserId : String) (now ttl : Nat) (st : SysState) (req : Request)
    (tok pk : String) (payload : TokenPayload) (sess : SessionRec)
    (h1 : extractAccessToken req.authorization = some tok)
    (h2 : decode tok = some payload)
    (h3 : payload.user_session_pk = some pk) (h4 : pk ≠ "")
    (h5 : (get_user_session_by_id st now ttl pk).fst = some sess)
    (h6 : sess.access_token_state = "VALID")
    (h7 : sess.access_token_expires_at = none) :
    (authenticate decode settings newUserId now ttl st req).fst = .authenticated pk sess := by
  simp only [authenticate, h1, authCase1, h2, h3, presentHeader, if_neg h4]
  cases hg : get_user_session_by_id st now ttl pk with
  | mk o st1 =>
    rw [hg] at h5
    simp only at h5
    subst h5
    simp [h6, h7]

theorem C10_witness :
    (authenticate exampleDecode exampleSettings "nu" 999999999999 60 ⟨exampleDb, []⟩
        { path := "/api/v2/simplify", authorization := some "Bearer T1",
          unauthenticated_user_id := none }).fst
      = .authenticated "s1" exampleSession :=
  C10_theorem exampleDecode exampleSettings "nu" 999999999999 60 ⟨exampleDb, []⟩
    { path := "/api/v2/simplify", authorization := some "Bearer T1",
      unauthenticated_user_id := none }
    "T1" "s1" { sub := some "sub1", email := none, user_session_pk := some "s1", exp := none }
    exampleSession (by decide) (by decide) rfl (by decide) (by decide) rfl rfl

/-- C5: a request carrying an anonymous id that is absent from the usage
ledger (and no access token) is rejected with the 401 LOGIN_REQUIRED
rejection and the whole system state is returned unchanged, whatever the
endpoint configuration resolves to: no anonymous record is created and no
counter is incremented, so an unregistered id is never treated as a new
caller. -/
theorem C5_theorem (decode : String → Option TokenPayload) (settings : String → Option Nat)
    (newUserId uid : String) (now ttl : Nat) (st : SysState) (req : Request)
    (h1 : extractAccessToken req.authorization = none)
    (h2 : req.unauthenticated_user_id = some uid) (h3 : uid ≠ "")
    (h4 : get_unauthenticated_user_usage st.db uid = none) :
    authenticate decode settings newUserId now ttl st req = (.rejected loginRequired401, st) := by
  simp only [authenticate, h1, h2, presentHeader, if_neg h3, authCase2, h4]

theorem C5_witness :
    authenticate exampleDecode exampleSettings "nu" 0 60 ⟨exampleDb, []⟩
        { path := "/api/v2/simplify", authorization := none,
          unauthenticated_user_id := some "ghost" }
      = (.rejected loginRequired401, ⟨exampleDb, []⟩) :=
  C5_theorem exampleDecode exampleSettings "nu" "ghost" 0 60 ⟨exampleDb, []⟩
    { path := "/api/v2/simplify", authorization := none,
      unauthenticated_user_id := some "ghost" }
    rfl rfl (by decide) (by decide)

/-- C7: invalidation is idempotent: running invalidate_user_session a second
time leaves the stored state exactly as after the first run and reports zero
updated rows instead of failing; at the route level a second logout with the
same token still returns the success response and does not change the
state. -/
theorem C7_theorem (db : Db) (v sub : String) (now1 now2 now3 now4 : Nat)
    (decode : String → Option TokenPayload) (auth : Option String) (h tok : String)
    (payload : TokenPayload)
    (hh : auth = some h) (hb : strStartsWith h "Bearer " = true)
    (ht : stripBearer h = tok) (hne : tok ≠ "")
    (hd : decode tok = some payload) (hsub : payload.sub = some sub) (hsubne : sub ≠ "")
    (hinfo : get_user_info_by_sub (invalidate_user_session db now3 "GOOGLE" sub).snd sub ≠ none) :
    (invalidate_user_session (invalidate_user_session db now1 v sub).snd now2 v sub).snd
        = (invalidate_user_session db now1 v sub).snd
    ∧ (invalidate_user_session (invalidate_user_session db now1 v sub).snd now2 v sub).fst
        = false
    ∧ (logout decode auth "GOOGLE" now4 (logout decode auth "GOOGLE" now3 db).snd).snd
        = (logout decode auth "GOOGLE" now3 db).snd
    ∧ (logout decode auth "GOOGLE" now4 (logout decode auth "GOOGLE" now3 db).snd).fst
        = .ok { isLoggedIn := false, userSessionPk := (payload.user_session_pk).getD "" } := by
  obtain ⟨u, hu⟩ : ∃ u, get_user_info_by_sub
      (invalidate_user_session db now3 "GOOGLE" sub).snd sub = some u := by
    cases hx : get_user_info_by_sub (invalidate_user_session db now3 "GOOGLE" sub).snd sub with
    | none => exact absurd hx hinfo
    | some u => exact ⟨u, rfl⟩
  have L1 : logout decode auth "GOOGLE" now3 db
      = (.ok { isLoggedIn := false, userSessionPk := (payload.user_session_pk).getD "" },
         (invalidate_user_session db now3 "GOOGLE" sub).snd) := by
    rw [logout_reduces decode auth h tok sub payload db now3 hh hb ht hne hd hsub hsubne, hu]
  have I2 : invalidate_user_session (invalidate_user_session db now3 "GOOGLE" sub).snd
      now4 "GOOGLE" sub = (false, (invalidate_user_session db now3 "GOOGLE" sub).snd) :=
    invalidate_idem db "GOOGLE" sub now3 now4
  have hu2 : get_user_info_by_sub
      (invalidate_user_session (invalidate_user_session db now3 "GOOGLE" sub).snd
        now4 "GOOGLE" sub).snd sub = some u := by
    rw [I2]
    exact hu
  have L2 : logout decode auth "GOOGLE" now4 (invalidate_user_session db now3 "GOOGLE" sub).snd
      = (.ok { isLoggedIn := false, userSessionPk := (payload.user_session_pk).getD "" },
         (invalidate_user_session (invalidate_user_session db now3 "GOOGLE" sub).snd
           now4 "GOOGLE" sub).snd) := by
    rw [logout_reduces decode auth h tok sub payload _ now4 hh hb ht hne hd hsub hsubne, hu2]
  refine ⟨by rw [invalidate_idem db v sub now1 now2],
          by rw [invalidate_idem db v sub now1 now2], ?_, ?_⟩
  · rw [L1]
    simp only [L2, I2]
  · rw [L1]
    simp only [L2]

theorem C7_witness :
    (invalidate_user_session
        (invalidate_user_session exampleDb 1 "GOOGLE" "sub1").snd 2 "GOOGLE" "sub1").snd
      = (invalidate_user_session exampleDb 1 "GOOGLE" "sub1").snd
    ∧ (invalidate_user_session
        (invalidate_user_session exampleDb 1 "GOOGLE" "sub1").snd 2 "GOOGLE" "sub1").fst
      = false
    ∧ (logout exampleDecode (some "Bearer T1") "GOOGLE" 4
        (logout exampleDecode (some "Bearer T1") "GOOGLE" 3 exampleDb).snd).snd
      = (logout exampleDecode (some "Bearer T1") "GOOGLE" 3 exampleDb).snd
    ∧ (logout exampleDecode (some "Bearer T1") "GOOGLE" 4
        (logout exampleDecode (some "Bearer T1") "GOOGLE" 3 exampleDb).snd).fst
      = .ok { isLoggedIn := false, userSessionPk := "s1" } :=
  C7_theorem exampleDb "GOOGLE" "sub1" 1 2 3 4 exampleDecode (some "Bearer T1")
    "Bearer T1" "T1"
    { sub := some "sub1", email := none, user_session_pk := some "s1", exp := none }
    rfl (by decide) (by decide) (by decide) (by decide) rfl (by decide) (by decide)

/-- C8: logout with an access token of an identity invalidates every VALID
session of that (provider, subject) identity, not only the session the token
references, while every session that does not belong to the identity is left
in the table unchanged (and the table keeps its size). -/
theorem C8_theorem (decode : String → Option TokenPayload) (auth : Option String)
    (h tok sub : String) (payload : TokenPayload) (db : Db) (g : GoogleAuthRec)
    (now : Nat) (s : SessionRec)
    (hh : auth = some h) (hb : strStartsWith h "Bearer " = true)
    (ht : stripBearer h = tok) (hne : tok ≠ "")
    (hd : decode tok = some payload) (hsub : payload.sub = some sub) (hsubne : sub ≠ "")
    (hg : db.google_auth.find? (fun x => x.sub == sub) = some g)
    (hs : s ∈ db.sessions) :
    (logout decode auth "GOOGLE" now db).snd.sessions.length = db.sessions.length
    ∧ (s.auth_vendor_type = "GOOGLE" → s.auth_vendor_id = g.id →
        s.access_token_state = "VALID" →
        { s with access_token_state := "INVALID", updated_at := now }
          ∈ (logout decode auth "GOOGLE" now db).snd.sessions)
    ∧ (¬ (s.auth_vendor_type = "GOOGLE" ∧ s.auth_vendor_id = g.id ∧
          s.access_token_state = "VALID") →
        s ∈ (logout decode auth "GOOGLE" now db).snd.sessions) := by
  have hsnd : (logout decode auth "GOOGLE" now db).snd
      = (invalidate_user_session db now "GOOGLE" sub).snd := by
    rw [logout_reduces decode auth h tok sub payload db now hh hb ht hne hd hsub hsubne]
    cases get_user_info_by_sub (invalidate_user_session db now "GOOGLE" sub).snd sub <;> rfl
  have hinv : (invalidate_user_session db now "GOOGLE" sub).snd
      = { db with sessions := db.sessions.map (applyInvalidate "GOOGLE" g.id now) } := by
    simp [invalidate_user_session, hg]
  rw [hsnd, hinv]
  refine ⟨by simp, ?_, ?_⟩
  · intro hv ha hst
    have hrow : applyInvalidate "GOOGLE" g.id now s
        = { s with access_token_state := "INVALID", updated_at := now } := by
      unfold applyInvalidate invalidateHit
      rw [if_pos (by simp [hv, ha, hst])]
    rw [← hrow]
    exact List.mem_map_of_mem _ hs
  · intro hno
    have hrow : applyInvalidate "GOOGLE" g.id now s = s := by
      unfold applyInvalidate
      rw [if_neg]
      simp only [invalidateHit, Bool.and_eq_true, beq_iff_eq]
      tauto
    rw [← hrow]
    exact List.mem_map_of_mem _ hs

theorem C8_witness :
    (logout exampleDecode (some "Bearer T1") "GOOGLE" 7 exampleDb).snd.sessions.length
      = exampleDb.sessions.length
    ∧ (exampleSession.auth_vendor_type = "GOOGLE" → exampleSession.auth_vendor_id = "g1" →
        exampleSession.access_token_state = "VALID" →
        { exampleSession with access_token_state := "INVALID", updated_at := 7 }
          ∈ (logout exampleDecode (some "Bearer T1") "GOOGLE" 7 exampleDb).snd.sessions)
    ∧ (¬ (exampleSession.auth_vendor_type = "GOOGLE" ∧ exampleSession.auth_vendor_id = "g1" ∧
          exampleSession.access_token_state = "VALID") →
        exampleSession ∈ (logout exampleDecode (some "Bearer T1") "GOOGLE" 7
          exampleDb).snd.sessions) :=
  C8_theorem exampleDecode (some "Bearer T1") "Bearer T1" "T1" "sub1"
    { sub := some "sub1", email := none, user_session_pk := some "s1", exp := none }
    exampleDb { id := "g1", user_id := "u1", sub := "sub1" } 7 exampleSession
    rfl (by decide) (by decide) (by decide) (by decide) rfl (by decide) (by decide)
    (by decide)

/-- C4: for a registered anonymous caller and an endpoint whose counter field
and ceiling resolve, the gateway rejects with the 429 rejection exactly when
the current count has reached the ceiling, leaving the state untouched (so
the call after the ceiling-th admitted call is rejected); otherwise it admits
the request and bumps exactly that one counter by one, leaving the counter of
any other endpoint and the ledger row of any other caller unchanged. -/
theorem C4_theorem (decode : String → Option TokenPayload) (settings : String → Option Nat)
    (newUserId uid f g B : String) (limit : Nat) (us : List (String × Nat))
    (now ttl : Nat) (st : SysState) (req : Request)
    (h1 : extractAccessToken req.authorization = none)
    (h2 : req.unauthenticated_user_id = some uid) (h3 : uid ≠ "")
    (h4 : get_unauthenticated_user_usage st.db uid = some us) (h5 : us ≠ [])
    (h6 : get_api_counter_field_and_limit settings req.path = (some f, some limit))
    (hg : g ≠ f) (hB : B ≠ uid) :
    if (lookupUsage us f).getD 0 ≥ limit then
      authenticate decode settings newUserId now ttl st req = (.rejected limitExceeded429, st)
    else
      (authenticate decode settings newUserId now ttl st req).fst = .anonymous uid false
      ∧ (authenticate decode settings newUserId now ttl st req).snd.cache = st.cache
      ∧ (authenticate decode settings newUserId now ttl st req).snd.db.sessions
          = st.db.sessions
      ∧ get_unauthenticated_user_usage
          (authenticate decode settings newUserId now ttl st req).snd.db uid
          = some (setUsage us f ((lookupUsage us f).getD 0 + 1))
      ∧ lookupUsage (setUsage us f ((lookupUsage us f).getD 0 + 1)) f
          = some ((lookupUsage us f).getD 0 + 1)
      ∧ lookupUsage (setUsage us f ((lookupUsage us f).getD 0 + 1)) g = lookupUsage us g
      ∧ get_unauthenticated_user_usage
          (authenticate decode settings newUserId now ttl st req).snd.db B
          = get_unauthenticated_user_usage st.db B := by
  have h5b : us.isEmpty = false := by simp [h5]
  have hred : authenticate decode settings newUserId now ttl st req
      = authCase2 st uid (some f) (some limit) := by
    simp only [authenticate, h1, h2, presentHeader, if_neg h3, h6]
  by_cases hcase : (lookupUsage us f).getD 0 ≥ limit
  · rw [if_pos hcase, hred]
    simp [authCase2, h4, h5b, hcase]
  · rw [if_neg hcase]
    have hc2 : authCase2 st uid (some f) (some limit)
        = (.anonymous uid false, { st with db := increment_api_usage st.db uid f }) := by
      simp [authCase2, h4, h5b, hcase]
    rw [hred, hc2]
    exact ⟨rfl, rfl, increment_preserves_sessions st.db uid f,
           usage_after_increment st.db uid f us h4,
           lookupUsage_set_self us f ((lookupUsage us f).getD 0 + 1),
           lookupUsage_set_other us f ((lookupUsage us f).getD 0 + 1) g hg,
           usage_other_after_increment st.db uid f B hB⟩

theorem C4_witness :
    if (lookupUsage [("simplify_api_count_so_far", 3), ("ask_api_count_so_far", 0)]
          "simplify_api_count_so_far").getD 0 ≥ 5 then
      authenticate exampleDecode exampleSettings "nu" 0 60 ⟨exampleUsageDb, []⟩
          { path := "/api/v2/simplify", authorization := none,
            unauthenticated_user_id := some "anon1" }
        = (.rejected limitExceeded429, ⟨exampleUsageDb, []⟩)
    else
      (authenticate exampleDecode exampleSettings "nu" 0 60 ⟨exampleUsageDb, []⟩
          { path := "/api/v2/simplify", authorization := none,
            unauthenticated_user_id := some "anon1" }).fst = .anonymous "anon1" false
      ∧ (authenticate exampleDecode exampleSettings "nu" 0 60 ⟨exampleUsageDb, []⟩
          { path := "/api/v2/simplify", authorization := none,
            unauthenticated_user_id := some "anon1" }).snd.cache = []
      ∧ (authenticate exampleDecode exampleSettings "nu" 0 60 ⟨exampleUsageDb, []⟩
          { path := "/api/v2/simplify", authorization := none,
            unauthenticated_user_id := some "anon1" }).snd.db.sessions
          = exampleUsageDb.sessions
      ∧ get_unauthenticated_user_usage
          (authenticate exampleDecode exampleSettings "nu" 0 60 ⟨exampleUsageDb, []⟩
            { path := "/api/v2/simplify", authorization := none,
              unauthenticated_user_id := some "anon1" }).snd.db "anon1"
          = some (setUsage [("simplify_api_count_so_far", 3), ("ask_api_count_so_far", 0)]
              "simplify_api_count_so_far"
              ((lookupUsage [("simplify_api_count_so_far", 3), ("ask_api_count_so_far", 0)]
                  "simplify_api_count_so_far").getD 0 + 1))
      ∧ lookupUsage (setUsage [("simplify_api_count_so_far", 3), ("ask_api_count_so_far", 0)]
            "simplify_api_count_so_far"
            ((lookupUsage [("simplify_api_count_so_far", 3), ("ask_api_count_so_far", 0)]
                "simplify_api_count_so_far").getD 0 + 1)) "simplify_api_count_so_far"
          = some ((lookupUsage [("simplify_api_count_so_far", 3), ("ask_api_count_so_far", 0)]
              "simplify_api_count_so_far").getD 0 + 1)
      ∧ lookupUsage (setUsage [("simplify_api_count_so_far", 3), ("ask_api_count_so_far", 0)]
            "simplify_api_count_so_far"
            ((lookupUsage [("simplify_api_count_so_far", 3), ("ask_api_count_so_far", 0)]
                "simplify_api_count_so_far").getD 0 + 1)) "ask_api_count_so_far"
          = lookupUsage [("simplify_api_count_so_far", 3), ("ask_api_count_so_far", 0)]
              "ask_api_count_so_far"
      ∧ get_unauthenticated_user_usage
          (authenticate exampleDecode exampleSettings "nu" 0 60 ⟨exampleUsageDb, []⟩
            { path := "/api/v2/simplify", authorization := none,
              unauthenticated_user_id := some "anon1" }).snd.db "anonOther"
          = get_unauthenticated_user_usage exampleUsageDb "anonOther" :=
  C4_theorem exampleDecode exampleSettings "nu" "anon1" "simplify_api_count_so_far"
    "ask_api_count_so_far" "anonOther" 5
    [("simplify_api_count_so_far", 3), ("ask_api_count_so_far", 0)] 0 60
    ⟨exampleUsageDb, []⟩
    { path := "/api/v2/simplify", authorization := none,
      unauthenticated_user_id := some "anon1" }
    rfl rfl (by decide) (by decide) (by decide) (by decide) (by decide) (by decide)

/-- C6 as frozen is refuted at this input: an unauthenticated request to an
endpoint with no resolvable ceiling, carrying an unregistered anonymous id,
is rejected with the 401 LOGIN_REQUIRED rejection, not with the 429
LimitExceeded rejection the claim demands. -/
theorem C6_counterexample :
    authenticate exampleDecode (fun _ => none) "nu" 0 60 ⟨exampleDb, []⟩
        { path := "/api/v2/simplify", authorization := none,
          unauthenticated_user_id := some "ghost" }
      = (.rejected loginRequired401, ⟨exampleDb, []⟩)
    ∧ ¬ loginRequired401.isLimitExceeded := by
  constructor
  · decide
  · intro hx
    simp [Rejection.isLimitExceeded, loginRequired401] at hx

/-- C6 amended: for every unauthenticated request to an endpoint whose
counter field or ceiling does not resolve, the gateway rejects and leaves the
state unchanged, and never admits the request unmetered; the rejection is the
429 one when the anonymous id is absent or registered, while an id that is
unregistered (or has an empty usage record) is caught by the earlier
existence check and rejected 401 LOGIN_REQUIRED instead. -/
theorem C6_theorem (decode : String → Option TokenPayload) (settings : String → Option Nat)
    (newUserId : String) (now ttl : Nat) (st : SysState) (req : Request)
    (h1 : extractAccessToken req.authorization = none)
    (h2 : (get_api_counter_field_and_limit settings req.path).snd = none) :
    authenticate decode settings newUserId now ttl st req
      = (match presentHeader req.unauthenticated_user_id with
         | none => (.rejected limitExceeded429, st)
         | some uid =>
           match get_unauthenticated_user_usage st.db uid with
           | none => (.rejected loginRequired401, st)
           | some us =>
             if us.isEmpty then (.rejected loginRequired401, st)
             else (.rejected limitExceeded429, st)) := by
  simp only [authenticate, h1, h2]
  cases presentHeader req.unauthenticated_user_id with
  | none => exact authCase3_config_none st newUserId _
  | some uid => exact authCase2_config_none st uid _

theorem C6_witness :
    authenticate exampleDecode (fun _ => none) "nu" 0 60 ⟨exampleUsageDb, []⟩
        { path := "/api/v2/simplify", authorization := none,
          unauthenticated_user_id := some "anon1" }
      = (match presentHeader (some "anon1") with
         | none => (.rejected limitExceeded429, (⟨exampleUsageDb, []⟩ : SysState))
         | some uid =>
           match get_unauthenticated_user_usage exampleUsageDb uid with
           | none => (.rejected loginRequired401, (⟨exampleUsageDb, []⟩ : SysState))
           | some us =>
             if us.isEmpty then (.rejected loginRequired401, (⟨exampleUsageDb, []⟩ : SysState))
             else (.rejected limitExceeded429, (⟨exampleUsageDb, []⟩ : SysState))) :=
  C6_theorem exampleDecode (fun _ => none) "nu" 0 60 ⟨exampleUsageDb, []⟩
    { path := "/api/v2/simplify", authorization := none,
      unauthenticated_user_id := some "anon1" }
    rfl rfl

/-- pickLatest only returns an element of its list. -/
theorem pickLatest_mem : ∀ (l : List SessionRec) (s : SessionRec),
    pickLatest l = some s → s ∈ l := by
  intro l
  induction l with
  | nil => intro s hs; simp [pickLatest] at hs
  | cons a t ih =>
    intro s hs
    simp only [pickLatest] at hs
    cases hp : pickLatest t with
    | none =>
      rw [hp] at hs
      cases hs
      exact List.mem_cons_self a t
    | some b =>
      rw [hp] at hs
      simp only at hs
      by_cases hb : b.updated_at > a.updated_at
      · rw [if_pos hb] at hs
        cases hs
        exact List.mem_cons_of_mem a (ih _ hp)
      · rw [if_neg hb] at hs
        cases hs
        exact List.mem_cons_self a t

/-- C1 as frozen is refuted at this input: issuing a session for a new user
returns the plaintext refresh secret and persists that very plaintext in the
session row; the stored column equals the secret handed to the caller, so
what is persisted is not a one-way hash of it. -/
theorem C1_counterexample :
    (get_or_create_user_session { users := [], google_auth := [], sessions := [], usage := [] }
        "GOOGLE" "g1" true "plainSecret1" "s1" 0 2592000 3600).fst.snd.fst = "plainSecret1"
    ∧ ((get_or_create_user_session { users := [], google_auth := [], sessions := [], usage := [] }
        "GOOGLE" "g1" true "plainSecret1" "s1" 0 2592000 3600).snd.sessions.map
          (fun s => s.refresh_token)) = ["plainSecret1"] := by
  decide

/-- C1 amended: on every issuance through get_or_create_user_session and on
every rotation through update_user_session_refresh_token, the session row
stores the plaintext refresh secret itself: the persisted refresh_token
column equals the secret returned to the caller, with no hashing applied. -/
theorem C1_theorem (db db2 : Db) (vendor gid : String) (isNew : Bool)
    (tok sid tok2 sid2 : String) (now rTtl aTtl now2 : Nat) (aexp : Option Nat)
    (hfresh : findSession db sid = none)
    (hex : (findSession db2 sid2).isSome) :
    (findSession (get_or_create_user_session db vendor gid isNew tok sid now rTtl aTtl).snd
        (get_or_create_user_session db vendor gid isNew tok sid now rTtl aTtl).fst.fst).map
        (fun s => s.refresh_token)
      = some (get_or_create_user_session db vendor gid isNew tok sid now rTtl aTtl).fst.snd.fst
    ∧ (findSession (update_user_session_refresh_token db2 tok2 now2 sid2 aexp).snd sid2).map
        (fun s => s.refresh_token)
      = some (update_user_session_refresh_token db2 tok2 now2 sid2 aexp).fst.fst := by
  constructor
  · unfold get_or_create_user_session
    cases isNew with
    | true =>
      simp only [if_true]
      unfold findSession at hfresh ⊢
      simp only [List.find?_append, hfresh, Option.none_or]
      rw [List.find?_cons_of_pos _ (by simp)]
      rfl
    | false =>
      simp only [Bool.false_eq_true, if_false]
      cases hpick : pickLatest (db.sessions.filter fun s =>
          s.auth_vendor_type == vendor && s.auth_vendor_id == gid) with
      | none =>
        unfold findSession at hfresh ⊢
        simp only [List.find?_append, hfresh, Option.none_or]
        rw [List.find?_cons_of_pos _ (by simp)]
        rfl
      | some s =>
        have hmem : s ∈ db.sessions :=
          (List.mem_filter.mp (pickLatest_mem _ _ hpick)).1
        have hsome : (db.sessions.find? (fun x => x.id == s.id)).isSome :=
          List.find?_isSome.mpr ⟨s, hmem, by simp⟩
        obtain ⟨r0, hr0⟩ := Option.isSome_iff_exists.mp hsome
        have hid := List.find?_some hr0
        unfold findSession
        simp only
        rw [find_map_key _ _ _ (fun r => by
          by_cases hr : (r.id == s.id) = true <;> simp [hr])]
        rw [hr0]
        have hid2 : r0.id = s.id := by simpa using hid
        simp [hid2]
  · obtain ⟨r0, hr0⟩ := Option.isSome_iff_exists.mp hex
    unfold findSession at hr0
    have hid := List.find?_some hr0
    rw [findSession_after_rotate]
    unfold findSession
    rw [hr0]
    simp only [Option.map_some']
    unfold applyRotate
    rw [if_pos hid]
    cases aexp <;> rfl

theorem C1_witness :
    (findSession (get_or_create_user_session exampleDb "GOOGLE" "g1" false "fresh1" "s2"
        5 2592000 3600).snd
        (get_or_create_user_session exampleDb "GOOGLE" "g1" false "fresh1" "s2"
          5 2592000 3600).fst.fst).map (fun s => s.refresh_token)
      = some (get_or_create_user_session exampleDb "GOOGLE" "g1" false "fresh1" "s2"
          5 2592000 3600).fst.snd.fst
    ∧ (findSession (update_user_session_refresh_token exampleDb "fresh2" 6 "s1" none).snd
        "s1").map (fun s => s.refresh_token)
      = some (update_user_session_refresh_token exampleDb "fresh2" 6 "s1" none).fst.fst :=
  C1_theorem exampleDb exampleDb "GOOGLE" "g1" false "fresh1" "s2" "fresh2" "s1"
    5 2592000 3600 6 none (by decide) (by decide)

/-- C2 as frozen is refuted by this trace: a first authenticated request at
time 0 populates the session cache; the session is then invalidated (the
source never evicts the cache); a second request at time 2, inside the cache
lifetime, is served the stale VALID session and admitted as authenticated
instead of being rejected with LoginRequired. -/
theorem C2_counterexample :
    (authenticate exampleDecode exampleSettings "nu" 2 60
        ⟨(invalidate_user_session
            (authenticate exampleDecode exampleSettings "nu" 0 60 ⟨exampleDb, []⟩
              { path := "/api/v2/simplify", authorization := some "Bearer T1",
                unauthenticated_user_id := none }).snd.db 1 "GOOGLE" "sub1").snd,
          (authenticate exampleDecode exampleSettings "nu" 0 60 ⟨exampleDb, []⟩
              { path := "/api/v2/simplify", authorization := some "Bearer T1",
                unauthenticated_user_id := none }).snd.cache⟩
        { path := "/api/v2/simplify", authorization := some "Bearer T1",
          unauthenticated_user_id := none }).fst
      = .authenticated "s1" exampleSession
    ∧ (authenticate exampleDecode exampleSettings "nu" 2 60
        ⟨(invalidate_user_session
            (authenticate exampleDecode exampleSettings "nu" 0 60 ⟨exampleDb, []⟩
              { path := "/api/v2/simplify", authorization := some "Bearer T1",
                unauthenticated_user_id := none }).snd.db 1 "GOOGLE" "sub1").snd,
          (authenticate exampleDecode exampleSettings "nu" 0 60 ⟨exampleDb, []⟩
              { path := "/api/v2/simplify", authorization := some "Bearer T1",
                unauthenticated_user_id := none }).snd.cache⟩
        { path := "/api/v2/simplify", authorization := some "Bearer T1",
          unauthenticated_user_id := none }).fst
      ≠ .rejected loginRequired401 := by
  constructor
  · decide
  · decide

/-- C2 amended: once no live cache entry for the session remains (the
read-through entries are short-lived, and the source never evicts them on
invalidation), every request presenting an access token that references an
invalidated session is rejected with the 401 LOGIN_REQUIRED rejection; inside
the cache lifetime a stale VALID copy may still be served and admitted. -/
theorem C2_theorem (decode : String → Option TokenPayload) (settings : String → Option Nat)
    (newUserId tok pk sub : String) (payload : TokenPayload) (db : Db)
    (g : GoogleAuthRec) (s0 : SessionRec) (cache : List CacheEntry)
    (now0 now ttl : Nat) (req : Request)
    (h1 : extractAccessToken req.authorization = some tok)
    (h2 : decode tok = some payload)
    (h3 : payload.user_session_pk = some pk) (h4 : pk ≠ "")
    (h5 : db.google_auth.find? (fun x => x.sub == sub) = some g)
    (h6 : findSession db pk = some s0)
    (h7 : s0.auth_vendor_type = "GOOGLE") (h8 : s0.auth_vendor_id = g.id)
    (h9 : cacheGet cache now (sessionCacheKey pk) = none) :
    (authenticate decode settings newUserId now ttl
        ⟨(invalidate_user_session db now0 "GOOGLE" sub).snd, cache⟩ req).fst
      = .rejected loginRequired401 := by
  have hfs : findSession (invalidate_user_session db now0 "GOOGLE" sub).snd pk
      = some (applyInvalidate "GOOGLE" g.id now0 s0) := by
    rw [findSession_after_invalidate db now0 "GOOGLE" sub g pk h5, h6]
    rfl
  have hstate : ¬ (applyInvalidate "GOOGLE" g.id now0 s0).access_token_state = "VALID" := by
    unfold applyInvalidate
    by_cases hv : invalidateHit "GOOGLE" g.id s0 = true
    · rw [if_pos hv]
      simp
    · rw [if_neg hv]
      unfold invalidateHit at hv
      simp only [Bool.and_eq_true, beq_iff_eq, not_and] at hv
      exact hv ⟨h7, h8⟩
  have hread := session_read_miss
    ⟨(invalidate_user_session db now0 "GOOGLE" sub).snd, cache⟩ now ttl pk h9
  simp only [authenticate, h1, authCase1, h2, h3, presentHeader, if_neg h4, hread, hfs]
  rw [if_neg hstate]

theorem C2_witness :
    (authenticate exampleDecode exampleSettings "nu" 120 60
        ⟨(invalidate_user_session exampleDb 1 "GOOGLE" "sub1").snd, []⟩
        { path := "/api/v2/simplify", authorization := some "Bearer T1",
          unauthenticated_user_id := none }).fst
      = .rejected loginRequired401 :=
  C2_theorem exampleDecode exampleSettings "nu" "T1" "s1" "sub1"
    { sub := some "sub1", email := none, user_session_pk := some "s1", exp := none }
    exampleDb { id := "g1", user_id := "u1", sub := "sub1" } exampleSession [] 1 120 60
    { path := "/api/v2/simplify", authorization := some "Bearer T1",
      unauthenticated_user_id := none }
    (by decide) (by decide) rfl (by decide) (by decide) (by decide) rfl rfl rfl

/-- Evaluation of one refresh call once the header, cookie, token, session,
state and expiry checks pass: everything is decided by comparing the cookie
against the refresh secret currently served for the session (which, through
the read-through cache, is the row read on a cache miss). -/
theorem refresh_reduces (decode : String → Option TokenPayload) (auth : Option String)
    (h tok pk cookie newTok : String) (payload : TokenPayload) (st : SysState)
    (s : SessionRec) (now ttl : Nat)
    (hh : auth = some h) (hb : strStartsWith h "Bearer " = true)
    (ht : stripBearer h = tok) (hne : tok ≠ "") (hck : cookie ≠ "")
    (hd : decode tok = some payload)
    (h3 : payload.user_session_pk = some pk) (h4 : pk ≠ "")
    (h5 : cacheGet st.cache now (sessionCacheKey pk) = none)
    (h6 : findSession st.db pk = some s)
    (h7 : s.access_token_state = "VALID")
    (h8 : ∀ e, s.refresh_token_expires_at = some e → ¬ e < now) :
    refresh_access_token decode auth (some cookie) newTok now ttl st
      = if cookie = s.refresh_token then
          (.success newTok (now + 30 * 86400),
           { db := (update_user_session_refresh_token st.db newTok now pk none).snd,
             cache := cacheSet st.cache now ttl (sessionCacheKey pk) s })
        else
          (.rejected refreshInvalidRefreshToken,
           { st with cache := cacheSet st.cache now ttl (sessionCacheKey pk) s }) := by
  have hexp : (match s.refresh_token_expires_at with
      | some e => decide (e < now)
      | none => false) = false := by
    cases hx : s.refresh_token_expires_at with
    | none => rfl
    | some e => simpa using h8 e hx
  have hread := session_read_miss st now ttl pk h5
  subst hh
  simp only [refresh_access_token, hb, ht, if_neg hne, presentHeader, if_neg hck, hd, h3,
             if_neg h4, hread, h6, if_pos h7, hexp, Bool.false_eq_true, if_false]
  rw [if_pos trivial]
  rfl

/-- C3 as frozen is refuted by this trace: after a successful rotation at
time 0 (old secret R0, new secret R1), replaying the previous secret R0 at
time 1 succeeds again instead of failing with the invalid-refresh-token
rejection, because the rotation left the pre-rotation row in the session
cache. -/
theorem C3_counterexample :
    (refresh_access_token exampleDecode (some "Bearer T1") (some "R0") "R1" 0 60
        ⟨exampleDb, []⟩).fst = .success "R1" 2592000
    ∧ (refresh_access_token exampleDecode (some "Bearer T1") (some "R0") "R2" 1 60
        (refresh_access_token exampleDecode (some "Bearer T1") (some "R0") "R1" 0 60
          ⟨exampleDb, []⟩).snd).fst = .success "R2" 2592001
    ∧ (refresh_access_token exampleDecode (some "Bearer T1") (some "R0") "R2" 1 60
        (refresh_access_token exampleDecode (some "Bearer T1") (some "R0") "R1" 0 60
          ⟨exampleDb, []⟩).snd).fst ≠ .rejected refreshInvalidRefreshToken := by
  refine ⟨by decide, by decide, by decide⟩

/-- C3 amended: when each refresh call reads through to the database (no live
cache entry for the session at call time), rotation gives the claimed
at-most-one-use behaviour: after a successful rotation, presenting the
previous refresh secret is rejected with the 401 invalid-refresh-token
rejection, while presenting the newly issued secret succeeds; inside the
cache lifetime of the pre-rotation row the outcomes are inverted, as the
counterexample shows. -/
theorem C3_theorem (decode : String → Option TokenPayload) (auth : Option String)
    (h tok pk newTok newTok2 newTok3 : String) (payload : TokenPayload)
    (st : SysState) (s : SessionRec) (now now2 ttl : Nat)
    (hh : auth = some h) (hb : strStartsWith h "Bearer " = true)
    (ht : stripBearer h = tok) (hne : tok ≠ "")
    (hd : decode tok = some payload)
    (h3 : payload.user_session_pk = some pk) (h4 : pk ≠ "")
    (h5 : cacheGet st.cache now (sessionCacheKey pk) = none)
    (h6 : findSession st.db pk = some s)
    (h7 : s.access_token_state = "VALID")
    (h8 : ∀ e, s.refresh_token_expires_at = some e → ¬ e < now)
    (hrt : s.refresh_token ≠ "")
    (h9 : newTok ≠ s.refresh_token) (h9b : newTok ≠ "")
    (h10 : ¬ now + 30 * 86400 < now2)
    (h11 : now + ttl ≤ now2) :
    (refresh_access_token decode auth (some s.refresh_token) newTok now ttl st).fst
        = .success newTok (now + 30 * 86400)
    ∧ (refresh_access_token decode auth (some s.refresh_token) newTok2 now2 ttl
        (refresh_access_token decode auth (some s.refresh_token) newTok now ttl st).snd).fst
        = .rejected refreshInvalidRefreshToken
    ∧ (refresh_access_token decode auth (some newTok) newTok3 now2 ttl
        (refresh_access_token decode auth (some s.refresh_token) newTok now ttl st).snd).fst
        = .success newTok3 (now2 + 30 * 86400) := by
  have hsid : (s.id == pk) = true := by
    unfold findSession at h6
    have hx := List.find?_some h6
    simpa using hx
  have e1 := refresh_reduces decode auth h tok pk s.refresh_token newTok payload st s now ttl
    hh hb ht hne hrt hd h3 h4 h5 h6 h7 h8
  rw [if_pos rfl] at e1
  have hs' : applyRotate newTok now pk none s
      = { s with
          refresh_token := newTok,
          refresh_token_expires_at := some (now + 30 * 86400),
          updated_at := now } := by
    unfold applyRotate
    rw [if_pos hsid]
  have h5' : cacheGet (cacheSet st.cache now ttl (sessionCacheKey pk) s) now2
      (sessionCacheKey pk) = none :=
    cacheGet_set_expired st.cache now ttl (sessionCacheKey pk) s now2 h11
  have h6' : findSession (update_user_session_refresh_token st.db newTok now pk none).snd pk
      = some { s with
               refresh_token := newTok,
               refresh_token_expires_at := some (now + 30 * 86400),
               updated_at := now } := by
    rw [findSession_after_rotate, h6, Option.map_some', hs']
  have h8' : ∀ e, ({ s with
      refresh_token := newTok,
      refresh_token_expires_at := some (now + 30 * 86400),
      updated_at := now } : SessionRec).refresh_token_expires_at = some e → ¬ e < now2 := by
    intro e he
    simp only at he
    cases he
    exact h10
  have e2 := refresh_reduces decode auth h tok pk s.refresh_token newTok2 payload
    ⟨(update_user_session_refresh_token st.db newTok now pk none).snd,
     cacheSet st.cache now ttl (sessionCacheKey pk) s⟩
    { s with
      refresh_token := newTok,
      refresh_token_expires_at := some (now + 30 * 86400),
      updated_at := now }
    now2 ttl hh hb ht hne hrt hd h3 h4 h5' h6' h7 h8'
  rw [if_neg (by simpa using fun hx => h9 hx.symm)] at e2
  have e3 := refresh_reduces decode auth h tok pk newTok newTok3 payload
    ⟨(update_user_session_refresh_token st.db newTok now pk none).snd,
     cacheSet st.cache now ttl (sessionCacheKey pk) s⟩
    { s with
      refresh_token := newTok,
      refresh_token_expires_at := some (now + 30 * 86400),
      updated_at := now }
    now2 ttl hh hb ht hne h9b hd h3 h4 h5' h6' h7 h8'
  rw [if_pos rfl] at e3
  refine ⟨by rw [e1], ?_, ?_⟩
  · rw [e1]
    simp only [e2]
  · rw [e1]
    simp only [e3]

theorem C3_witness :
    (refresh_access_token exampleDecode (some "Bearer T1")
        (some exampleSession.refresh_token) "N1" 0 60 ⟨exampleDb, []⟩).fst
        = .success "N1" (0 + 30 * 86400)
    ∧ (refresh_access_token exampleDecode (some "Bearer T1")
        (some exampleSession.refresh_token) "N2" 100 60
        (refresh_access_token exampleDecode (some "Bearer T1")
          (some exampleSession.refresh_token) "N1" 0 60 ⟨exampleDb, []⟩).snd).fst
        = .rejected refreshInvalidRefreshToken
    ∧ (refresh_access_token exampleDecode (some "Bearer T1") (some "N1") "N3" 100 60
        (refresh_access_token exampleDecode (some "Bearer T1")
          (some exampleSession.refresh_token) "N1" 0 60 ⟨exampleDb, []⟩).snd).fst
        = .success "N3" (100 + 30 * 86400) :=
  C3_theorem exampleDecode (some "Bearer T1") "Bearer T1" "T1" "s1" "N1" "N2" "N3"
    { sub := some "sub1", email := none, user_session_pk := some "s1", exp := none }
    ⟨exampleDb, []⟩ exampleSession 0 100 60
    rfl (by decide) (by decide) (by decide) (by decide) rfl (by decide) rfl (by decide)
    rfl (by intro e he; simp [exampleSession] at he; omega)
    (by decide) (by decide) (by decide) (by decide) (by decide)

end Caten
